import Mathlib

/-!
Shallow embedding of the GoSpire rider app's domain logic, translated from
the TypeScript source:

- src/rider-app/app/(tabs)/settlement.tsx (daily-settlement screen and the
  home screen with the delivery workflow, QR payment flow, POD capture),
- src/rider-app/app/(tabs)/index.tsx (earlier home screen variant),
- src/rider-app/services/locationService.ts,
- src/supabase/functions/generate-qr/index.ts,
- src/supabase/functions/payrex-webhook/index.ts,
- src/unnamed/part_002 (home screen variant with processCashFallback).

Conventions used throughout the embedding:
- ISO timestamp strings and JavaScript Date values are modelled as integer
  milliseconds since the epoch (Int).
- Monetary amounts and GPS coordinates are modelled as rationals (Rat),
  since JavaScript numbers in this code hold decimal currency values.
- Nullable / optional JavaScript fields are modelled as Option; a field
  that is absent from a supabase update object is modelled as none.
- URL strings that the code builds from structured data are modelled as
  structured values (see QrUrl, ProofUrl) recording exactly the data the
  source interpolates into the string.
-/

namespace GoSpire

/-! ## Order status values

The app stores statuses as strings.  statusRank gives the position of a
status in the workflow order PENDING, EN_ROUTE, ARRIVED, PAID, COMPLETED
used by the spec; the alternate spelling ENROUTE is treated like EN_ROUTE,
matching getStatusColor and the realtime handler in settlement.tsx.
-/

/-- JavaScript's toUpperCase on the ASCII status strings this app uses,
modelled character-wise (String.toUpper does not reduce in the kernel, so
the embedding spells out the same computation structurally). -/
def jsToUpper (s : String) : String :=
  String.mk (s.data.map Char.toUpper)

/-- Rank of an upper-cased status string in the delivery workflow. -/
def statusRankUpper : String → Option Nat
  | "PENDING" => some 0
  | "EN_ROUTE" => some 1
  | "ENROUTE" => some 1
  | "ARRIVED" => some 2
  | "PAID" => some 3
  | "COMPLETED" => some 4
  | _ => none

/-- Rank of a status string, case-insensitive (the UI guards compare
statuses through toUpperCase). -/
def statusRank (s : String) : Option Nat :=
  statusRankUpper (jsToUpper s)

/-! ## Settlement aggregation (settlement.tsx, fetchDailyStats, lines 54-111)

fetchDailyStats fetches today's COMPLETED orders for the rider and folds
them into a DailyStats record.  A database row may carry a null
payment_method or cod_amount, hence the Option fields.
-/

/-- Row of the orders table as consumed by fetchDailyStats. -/
structure DbOrderRow where
  id : String
  rider_id : String
  status : String
  payment_method : Option String
  cod_amount : Option Rat
deriving Repr, DecidableEq

/-- Amount of a row as the code reads it: order.cod_amount or 0 when the
column is null (JavaScript or-default). -/
def codAmount (o : DbOrderRow) : Rat :=
  o.cod_amount.getD 0

/-- Statistics record produced by fetchDailyStats (interface DailyStats in
settlement.tsx). -/
structure DailyStats where
  totalDeliveries : Nat
  qrphCount : Nat
  qrphAmount : Rat
  cashCount : Nat
  cashAmount : Rat
  totalAmount : Rat
deriving Repr, DecidableEq

/-- One step of the forEach loop in fetchDailyStats: add the row's amount
to totalAmount, and to the QRPH or CASH bucket according to
payment_method. -/
def statsStep (s : DailyStats) (o : DbOrderRow) : DailyStats :=
  let amount := codAmount o
  let s1 := { s with totalAmount := s.totalAmount + amount }
  if o.payment_method = some "QRPH" then
    { s1 with qrphCount := s1.qrphCount + 1, qrphAmount := s1.qrphAmount + amount }
  else if o.payment_method = some "CASH" then
    { s1 with cashCount := s1.cashCount + 1, cashAmount := s1.cashAmount + amount }
  else s1

/-- Aggregation computed by fetchDailyStats over the fetched rows:
totalDeliveries is initialised to data.length and the forEach loop
accumulates the remaining fields from zero. -/
def fetchDailyStatsCalc (orders : List DbOrderRow) : DailyStats :=
  orders.foldl statsStep
    { totalDeliveries := orders.length
      qrphCount := 0, qrphAmount := 0
      cashCount := 0, cashAmount := 0
      totalAmount := 0 }

/-- Predicate for rows counted in the QRPH bucket. -/
def isQrph (o : DbOrderRow) : Bool :=
  o.payment_method = some "QRPH"

/-- Predicate for rows counted in the CASH bucket. -/
def isCash (o : DbOrderRow) : Bool :=
  o.payment_method = some "CASH"

theorem statsStep_totalDeliveries (s : DailyStats) (o : DbOrderRow) :
    (statsStep s o).totalDeliveries = s.totalDeliveries := by
  by_cases h1 : o.payment_method = some "QRPH"
  · simp [statsStep, h1]
  · by_cases h2 : o.payment_method = some "CASH" <;> simp [statsStep, h1, h2]

theorem statsStep_totalAmount (s : DailyStats) (o : DbOrderRow) :
    (statsStep s o).totalAmount = s.totalAmount + codAmount o := by
  by_cases h1 : o.payment_method = some "QRPH"
  · simp [statsStep, h1]
  · by_cases h2 : o.payment_method = some "CASH" <;> simp [statsStep, h1, h2]

theorem statsStep_qrphCount (s : DailyStats) (o : DbOrderRow) :
    (statsStep s o).qrphCount = if isQrph o then s.qrphCount + 1 else s.qrphCount := by
  by_cases h1 : o.payment_method = some "QRPH"
  · simp [statsStep, isQrph, h1]
  · by_cases h2 : o.payment_method = some "CASH" <;> simp [statsStep, isQrph, h1, h2]

theorem statsStep_qrphAmount (s : DailyStats) (o : DbOrderRow) :
    (statsStep s o).qrphAmount
      = if isQrph o then s.qrphAmount + codAmount o else s.qrphAmount := by
  by_cases h1 : o.payment_method = some "QRPH"
  · simp [statsStep, isQrph, h1]
  · by_cases h2 : o.payment_method = some "CASH" <;> simp [statsStep, isQrph, h1, h2]

theorem statsStep_cashCount (s : DailyStats) (o : DbOrderRow) :
    (statsStep s o).cashCount = if isCash o then s.cashCount + 1 else s.cashCount := by
  by_cases h1 : o.payment_method = some "QRPH"
  · simp [statsStep, isCash, h1]
  · by_cases h2 : o.payment_method = some "CASH" <;> simp [statsStep, isCash, h1, h2]

theorem statsStep_cashAmount (s : DailyStats) (o : DbOrderRow) :
    (statsStep s o).cashAmount
      = if isCash o then s.cashAmount + codAmount o else s.cashAmount := by
  by_cases h1 : o.payment_method = some "QRPH"
  · simp [statsStep, isCash, h1]
  · by_cases h2 : o.payment_method = some "CASH" <;> simp [statsStep, isCash, h1, h2]

theorem foldl_statsStep_totalDeliveries (os : List DbOrderRow) (init : DailyStats) :
    (os.foldl statsStep init).totalDeliveries = init.totalDeliveries := by
  induction os generalizing init with
  | nil => rfl
  | cons o os ih => rw [List.foldl_cons, ih, statsStep_totalDeliveries]

theorem foldl_statsStep_totalAmount (os : List DbOrderRow) (init : DailyStats) :
    (os.foldl statsStep init).totalAmount = init.totalAmount + (os.map codAmount).sum := by
  induction os generalizing init with
  | nil => simp
  | cons o os ih =>
      rw [List.foldl_cons, ih, statsStep_totalAmount, List.map_cons, List.sum_cons, add_assoc]

theorem foldl_statsStep_qrphCount (os : List DbOrderRow) (init : DailyStats) :
    (os.foldl statsStep init).qrphCount = init.qrphCount + (os.filter isQrph).length := by
  induction os generalizing init with
  | nil => simp
  | cons o os ih =>
      rw [List.foldl_cons, ih, statsStep_qrphCount, List.filter_cons]
      by_cases h : isQrph o
      · simp [h]; omega
      · simp [h]

theorem foldl_statsStep_qrphAmount (os : List DbOrderRow) (init : DailyStats) :
    (os.foldl statsStep init).qrphAmount
      = init.qrphAmount + ((os.filter isQrph).map codAmount).sum := by
  induction os generalizing init with
  | nil => simp
  | cons o os ih =>
      rw [List.foldl_cons, ih, statsStep_qrphAmount, List.filter_cons]
      by_cases h : isQrph o <;> simp [h, add_assoc]

theorem foldl_statsStep_cashCount (os : List DbOrderRow) (init : DailyStats) :
    (os.foldl statsStep init).cashCount = init.cashCount + (os.filter isCash).length := by
  induction os generalizing init with
  | nil => simp
  | cons o os ih =>
      rw [List.foldl_cons, ih, statsStep_cashCount, List.filter_cons]
      by_cases h : isCash o
      · simp [h]; omega
      · simp [h]

theorem foldl_statsStep_cashAmount (os : List DbOrderRow) (init : DailyStats) :
    (os.foldl statsStep init).cashAmount
      = init.cashAmount + ((os.filter isCash).map codAmount).sum := by
  induction os generalizing init with
  | nil => simp
  | cons o os ih =>
      rw [List.foldl_cons, ih, statsStep_cashAmount, List.filter_cons]
      by_cases h : isCash o <;> simp [h, add_assoc]

/-- C2: for every list of fetched completed orders, the settlement
aggregation computes totalDeliveries as the number of orders, the QRPH
bucket as the count and cod_amount sum of orders with payment_method QRPH,
the CASH bucket likewise for CASH, and totalAmount as the cod_amount sum
over all orders, a missing cod_amount counting as 0. -/
theorem fetchDailyStats_aggregation_correct (orders : List DbOrderRow) :
    (fetchDailyStatsCalc orders).totalDeliveries = orders.length ∧
    (fetchDailyStatsCalc orders).qrphCount = (orders.filter isQrph).length ∧
    (fetchDailyStatsCalc orders).qrphAmount = ((orders.filter isQrph).map codAmount).sum ∧
    (fetchDailyStatsCalc orders).cashCount = (orders.filter isCash).length ∧
    (fetchDailyStatsCalc orders).cashAmount = ((orders.filter isCash).map codAmount).sum ∧
    (fetchDailyStatsCalc orders).totalAmount = (orders.map codAmount).sum := by
  unfold fetchDailyStatsCalc
  refine ⟨?_, ?_, ?_, ?_, ?_, ?_⟩
  · rw [foldl_statsStep_totalDeliveries]
  · rw [foldl_statsStep_qrphCount]; simp
  · rw [foldl_statsStep_qrphAmount]; simp
  · rw [foldl_statsStep_cashCount]; simp
  · rw [foldl_statsStep_cashAmount]; simp
  · rw [foldl_statsStep_totalAmount]; simp

/-! ## Status-writing operations of the app (C1)

Each operation below is a place in the app that issues a remote update
containing a status column, together with the condition on the selected
order's current status under which the UI makes that operation reachable
(the render guard of the button, the realtime-handler guard, or no guard
for the webhook).  Sources:

- settlement.tsx 1453-1463: Start Delivery button, shown when
  statujsToUpper sCase() is PENDING, calls updateOrderStatus(id, EN_ROUTE);
- settlement.tsx 1467-1477: I Have Arrived button, shown when
  statujsToUpper sCase() is EN_ROUTE, calls updateOrderStatus(id, ARRIVED);
- settlement.tsx 1481-1624: the payment buttons shown when
  statujsToUpper sCase() is ARRIVED lead to handlePOD, which writes
  status COMPLETED;
- settlement.tsx 725-743: realtime handler, when an update arrives with
  new status PAID for the viewed order, writes status COMPLETED;
- payrex-webhook/index.ts 16-33: on a payment_intent.succeeded event the
  webhook writes status PAID with no guard on the current status;
- index.tsx 117-121: handleGenerateQR writes status PENDING; the Generate
  QR button is shown whenever status is not COMPLETED (index.tsx 384);
- index.tsx 420-434: the simulate-payment button, shown when status is
  PENDING, writes status PAID;
- index.tsx 41-47: realtime handler, when the viewed order's new status is
  PAID, writes status COMPLETED;
- index.tsx 140-253 with buttons at 438-473: handlePOD writes status
  COMPLETED, reachable whenever status is not COMPLETED.
-/

/-- Operations of the app that write the orders.status column. -/
inductive AppStatusOp where
  | settlementStartDelivery
  | settlementMarkArrived
  | settlementPodComplete
  | settlementAutoCompleteOnPaid
  | webhookPaymentSucceeded
  | indexGenerateQR
  | indexSimulatePayment
  | indexAutoCompleteOnPaid
  | indexPodComplete
deriving Repr, DecidableEq

/-- Guard on the current status under which the operation is reachable,
as written in the source (some guards compare through toUpperCase, some
compare the raw string, the webhook has no guard). -/
def opEnabled : AppStatusOp → String → Bool
  | .settlementStartDelivery, s => jsToUpper s == "PENDING"
  | .settlementMarkArrived, s => jsToUpper s == "EN_ROUTE"
  | .settlementPodComplete, s => jsToUpper s == "ARRIVED"
  | .settlementAutoCompleteOnPaid, s => s == "PAID"
  | .webhookPaymentSucceeded, _ => true
  | .indexGenerateQR, s => s != "COMPLETED"
  | .indexSimulatePayment, s => s == "PENDING"
  | .indexAutoCompleteOnPaid, s => s == "PAID"
  | .indexPodComplete, s => s != "COMPLETED"

/-- Status value the operation writes. -/
def opStatusWrite : AppStatusOp → String
  | .settlementStartDelivery => "EN_ROUTE"
  | .settlementMarkArrived => "ARRIVED"
  | .settlementPodComplete => "COMPLETED"
  | .settlementAutoCompleteOnPaid => "COMPLETED"
  | .webhookPaymentSucceeded => "PAID"
  | .indexGenerateQR => "PENDING"
  | .indexSimulatePayment => "PAID"
  | .indexAutoCompleteOnPaid => "COMPLETED"
  | .indexPodComplete => "COMPLETED"

/-- C1 as claimed: every status write the app can issue moves the order's
status strictly forward in the workflow order. -/
def statusWritesStrictlyForward : Prop :=
  ∀ (op : AppStatusOp) (s : String) (rs : Nat),
    opEnabled op s = true → statusRank s = some rs →
    ∃ w, statusRank (opStatusWrite op) = some w ∧ rs < w

/-- C1 counterexample: handleGenerateQR in index.tsx is reachable on an
order whose status is PAID (PAID is not COMPLETED) and writes status
PENDING, whose rank 0 is below PAID's rank 3 — a backward status write. -/
theorem status_write_backward_cex : ¬ statusWritesStrictlyForward := by
  intro h
  obtain ⟨w, hw, hlt⟩ := h AppStatusOp.indexGenerateQR "PAID" 3 (by decide) (by decide)
  have h0 : statusRank (opStatusWrite AppStatusOp.indexGenerateQR) = some 0 := by decide
  rw [h0] at hw
  have hw0 := Option.some.inj hw
  omega

/-- Status-writing operations of the settlement-screen delivery workflow. -/
def settlementWorkflowOps : List AppStatusOp :=
  [.settlementStartDelivery, .settlementMarkArrived,
   .settlementPodComplete, .settlementAutoCompleteOnPaid]

/-- C1 amended: every status write of the settlement screen's workflow
moves the status strictly forward from the status that makes it reachable
(PENDING to EN_ROUTE, EN_ROUTE to ARRIVED, ARRIVED to COMPLETED via POD,
PAID to COMPLETED via auto-complete), and the webhook's unconditional PAID
write moves strictly forward when the targeted order is in ARRIVED; the
claim's universal form fails only because index.tsx's handleGenerateQR
writes PENDING on any non-COMPLETED order. -/
theorem settlement_status_writes_strictly_forward :
    (∀ (op : AppStatusOp), op ∈ settlementWorkflowOps →
      ∀ (s : String) (rs : Nat), opEnabled op s = true → statusRank s = some rs →
        ∃ w, statusRank (opStatusWrite op) = some w ∧ rs < w) ∧
    (∀ (s : String) (rs : Nat), jsToUpper s = "ARRIVED" → statusRank s = some rs →
      ∃ w, statusRank (opStatusWrite AppStatusOp.webhookPaymentSucceeded) = some w ∧ rs < w) := by
  constructor
  · intro op hmem s rs hen hrank
    cases op with
    | settlementStartDelivery =>
        have hs : jsToUpper s = "PENDING" := by simpa [opEnabled] using hen
        have h0 : statusRank s = some 0 := by simp [statusRank, hs, statusRankUpper]
        rw [h0] at hrank
        have := Option.some.inj hrank
        exact ⟨1, by decide, by omega⟩
    | settlementMarkArrived =>
        have hs : jsToUpper s = "EN_ROUTE" := by simpa [opEnabled] using hen
        have h1 : statusRank s = some 1 := by simp [statusRank, hs, statusRankUpper]
        rw [h1] at hrank
        have := Option.some.inj hrank
        exact ⟨2, by decide, by omega⟩
    | settlementPodComplete =>
        have hs : jsToUpper s = "ARRIVED" := by simpa [opEnabled] using hen
        have h2 : statusRank s = some 2 := by simp [statusRank, hs, statusRankUpper]
        rw [h2] at hrank
        have := Option.some.inj hrank
        exact ⟨4, by decide, by omega⟩
    | settlementAutoCompleteOnPaid =>
        have hs : s = "PAID" := by simpa [opEnabled] using hen
        subst hs
        have := Option.some.inj hrank
        exact ⟨4, by decide, by omega⟩
    | webhookPaymentSucceeded => exact absurd hmem (by decide)
    | indexGenerateQR => exact absurd hmem (by decide)
    | indexSimulatePayment => exact absurd hmem (by decide)
    | indexAutoCompleteOnPaid => exact absurd hmem (by decide)
    | indexPodComplete => exact absurd hmem (by decide)
  · intro s rs hs hrank
    have h2 : statusRank s = some 2 := by simp [statusRank, hs, statusRankUpper]
    rw [h2] at hrank
    have := Option.some.inj hrank
    exact ⟨3, by decide, by omega⟩

/-- Witness for the amended C1 theorem at a concrete workflow step:
Start Delivery on a PENDING order writes a strictly higher-ranked status. -/
theorem settlement_status_writes_strictly_forward_witness :
    ∃ w, statusRank (opStatusWrite AppStatusOp.settlementStartDelivery) = some w ∧ 0 < w :=
  settlement_status_writes_strictly_forward.1 AppStatusOp.settlementStartDelivery
    (by decide) "PENDING" 0 (by decide) (by decide)

/-! ## Shared value representations

URL strings the code assembles by interpolation are modelled as structured
values recording the interpolated data, so theorems can speak about the
payload content exactly.
-/

/-- Payload object the mock/fallback QR encodes:
the object literal with merchant, order_id, amount, currency and
payment_type fields (generate-qr/index.ts 144-150, settlement.tsx
910-916 and 1008-1014). -/
structure FallbackQrPayload where
  merchant : String
  order_id : String
  amount : Rat
  currency : String
  payment_type : String
deriving Repr, DecidableEq

/-- QR value shown to the customer.  qrServer p stands for the string
https://api.qrserver.com/v1/create-qr-code/?size=250x250&data= followed by
encodeURIComponent of JSON.stringify of p; payrexImage is a QR image URL
received from the generate-qr edge function / PayRex; payrexDeepLink is
the mock payrex://pay string built in index.tsx 105. -/
inductive QrUrl where
  | payrexImage (url : String)
  | qrServer (payload : FallbackQrPayload)
  | payrexDeepLink (amount : Rat) (orderId : String) (merchant : String)
deriving Repr, DecidableEq

/-- Proof-of-delivery URL written to orders.proof_url: either the public
URL of an uploaded object (bucket and file name), or the literal
no_storage_configured marker. -/
inductive ProofUrl where
  | publicUrl (bucket : String) (fileName : String)
  | noStorageConfigured
deriving Repr, DecidableEq

/-- Fields an orders-table update object can carry in this app; a field
the source update object does not mention is none. -/
structure OrdersUpdate where
  status : Option String := none
  payment_method : Option String := none
  proof_url : Option ProofUrl := none
  delivery_latitude : Option Rat := none
  delivery_longitude : Option Rat := none
  delivery_timestamp : Option Int := none
  cash_fallback_reason : Option String := none
  fallback_timestamp : Option Int := none
  payrex_id : Option String := none
  qr_ph : Option QrUrl := none
  qr_generated_at : Option Int := none
  qr_expires_at : Option Int := none
  payrex_payment_intent_id : Option String := none
deriving Repr, DecidableEq

/-! ## generate-qr edge function (src/supabase/functions/generate-qr/index.ts,
Deno.serve handler, lines 71-170)

The handler parses the request body, calls PayRex, and answers with a JSON
body; when the PayRex call throws or responds non-ok it falls back to a
qrserver-generated QR.  Clock reads are passed in explicitly: tNow is the
Date.now() read and tGen the new Date() read of the executing branch (the
try branch reads at lines 82-83, the catch branch at lines 141-142 plus a
third Date.now() at line 157 for the fallback payrex_id). -/

/-- QR expiry time in minutes (generate-qr/index.ts line 78). -/
def QR_EXPIRY_MINUTES : Nat := 5

/-- Parsed request body of the generate-qr function. -/
structure QrRequestBody where
  orderId : String
  amount : Rat
deriving Repr, DecidableEq

/-- Outcome of the fetch to the PayRex payment_intents endpoint: ok
carries the extracted QR image URL (next_action.qr_code.image_url_png or
payment_method_options.qrph.qr_code_url, possibly absent) and the intent
id; httpError is a non-ok response (line 104 throws); networkError is the
fetch or json parse itself throwing. -/
inductive PayRexCallResult where
  | ok (qrUrl : Option String) (payrexId : String)
  | httpError
  | networkError
deriving Repr, DecidableEq

/-- JSON body of a 200 response of the generate-qr function. -/
structure EdgeQrResponse where
  qr_url : Option QrUrl
  payrex_id : String
  generated_at : Int
  expires_at : Int
  expires_in_seconds : Nat
  test_mode : Bool
deriving Repr, DecidableEq

/-- Result of one invocation of the generate-qr handler: a 200 JSON
response or the 400 invalid-request-body error of the fallback branch. -/
inductive EdgeResult where
  | success (r : EdgeQrResponse)
  | badRequest (error : String)
deriving Repr, DecidableEq

/-- Response of the PayRex-success branch (generate-qr/index.ts 112-121):
expires_at is computed from the Date.now() read at line 82, generated_at
from the new Date() read at line 83. -/
def generateQrSuccessResponse (qrUrl : Option String) (payrexId : String)
    (tNow tGen : Int) : EdgeQrResponse :=
  { qr_url := qrUrl.map QrUrl.payrexImage
    payrex_id := payrexId
    generated_at := tGen
    expires_at := tNow + QR_EXPIRY_MINUTES * 60 * 1000
    expires_in_seconds := QR_EXPIRY_MINUTES * 60
    test_mode := false }

/-- Mock/fallback QR payload for an order (the object literal shared by the
edge-function fallback and the client mock path). -/
def mockQrPayload (orderId : String) (amount : Rat) : FallbackQrPayload :=
  { merchant := "Rider App"
    order_id := orderId
    amount := amount
    currency := "PHP"
    payment_type := "QRPH" }

/-- Response of the catch/fallback branch (generate-qr/index.ts 141-168):
a qrserver QR URL encoding the fallback payload, a synthetic payrex_id
built from the order id and a Date.now() read, and the same expiry
arithmetic as the success branch. -/
def generateQrFallbackResponse (orderId : String) (amount : Rat)
    (tNow tGen tId : Int) : EdgeQrResponse :=
  { qr_url := some (QrUrl.qrServer (mockQrPayload orderId amount))
    payrex_id := "fallback_" ++ orderId ++ "_" ++ toString tId
    generated_at := tGen
    expires_at := tNow + QR_EXPIRY_MINUTES * 60 * 1000
    expires_in_seconds := QR_EXPIRY_MINUTES * 60
    test_mode := true }

/-- One invocation of the generate-qr handler.  body is the parsed request
body (none when the JSON body cannot be parsed; the catch branch re-parses
the same request body, modelled as reusing body).  tTryNow/tTryGen are the
clock reads of the try branch, tFNow/tFGen/tFId those of the catch
branch. -/
def generateQrHandler (body : Option QrRequestBody) (payrex : PayRexCallResult)
    (tTryNow tTryGen tFNow tFGen tFId : Int) : EdgeResult :=
  match body with
  | none => .badRequest "Invalid request body"
  | some b =>
    match payrex with
    | .ok qrUrl pid => .success (generateQrSuccessResponse qrUrl pid tTryNow tTryGen)
    | .httpError => .success (generateQrFallbackResponse b.orderId b.amount tFNow tFGen tFId)
    | .networkError => .success (generateQrFallbackResponse b.orderId b.amount tFNow tFGen tFId)

/-! ## Client QR generation (settlement.tsx, handleGenerateQR, lines 887-1044)

The client invokes the generate-qr function; when the invoke errors, data
is missing, or data carries no qr_url, it builds a mock QR locally.  Only
the fields the modelled operations touch are carried on Order; the
remaining Order interface fields (proof_url and the qr_* columns loaded in
the list view) do not feed these computations. -/

/-- Order as held by the home screen. -/
structure Order where
  id : String
  customer_name : String
  address : String
  cod_amount : Rat
  status : String
  created_at : Int
deriving Repr, DecidableEq

/-- Data object of a generate-qr invoke response as read by the client. -/
structure ClientEdgeData where
  qr_url : Option QrUrl
  generated_at : Option Int
  expires_at : Option Int
  payrex_id : Option String
deriving Repr, DecidableEq

/-- Result of supabase.functions.invoke as destructured by the client. -/
structure InvokeResult where
  data : Option ClientEdgeData
  error : Option String
deriving Repr, DecidableEq

/-- Condition of the mock branch (settlement.tsx line 900):
error, or no data, or data without a qr_url. -/
def invokeFailed (r : InvokeResult) : Bool :=
  r.error.isSome ||
    (match r.data with
     | none => true
     | some d => d.qr_url.isNone)

/-- State and database writes produced by one handleGenerateQR run. -/
structure QrGenOutcome where
  qrValue : Option QrUrl
  qrExpiresAt : Option Int
  qrTimeRemaining : Option Int
  updates : List (String × OrdersUpdate)
deriving Repr, DecidableEq

/-- Mock branch of handleGenerateQR (settlement.tsx 901-951 plus the
payment_method update at 993-995): builds the qrserver QR over the mock
payload, sets the expiry 5 minutes after the single new Date() read tNow,
initialises the countdown to 300 seconds, and writes the QR metadata and
then payment_method QRPH to the order row; tMockId is the Date.now() read
used for the mock payrex_payment_intent_id. -/
def settlementMockOutcome (order : Order) (tNow tMockId : Int) : QrGenOutcome :=
  let mockUrl := QrUrl.qrServer (mockQrPayload order.id order.cod_amount)
  let mockExpiry := tNow + 5 * 60 * 1000
  { qrValue := some mockUrl
    qrExpiresAt := some mockExpiry
    qrTimeRemaining := some (5 * 60)
    updates := [(order.id,
      { qr_ph := some mockUrl
        qr_generated_at := some tNow
        qr_expires_at := some mockExpiry
        payrex_payment_intent_id := some ("mock_" ++ toString tMockId) }),
      (order.id, { payment_method := some "QRPH" })] }

/-- handleGenerateQR of the home screen in settlement.tsx.  In the success
branch (lines 952-984) the expiry state is set only when the response
carries expires_at, the countdown is initialised to the floor of the
remaining seconds against the new Date() read tNow, and the QR metadata
row update falls back to tNow for a missing generated_at. -/
def settlementHandleGenerateQR (order : Order) (invoke : InvokeResult)
    (tNow tMockId : Int) : QrGenOutcome :=
  match invoke.error, invoke.data with
  | none, some d =>
    match d.qr_url with
    | some u =>
        { qrValue := some u
          qrExpiresAt := d.expires_at
          qrTimeRemaining := d.expires_at.map (fun e => (e - tNow).fdiv 1000)
          updates := [(order.id,
            { qr_ph := some u
              qr_generated_at := some (d.generated_at.getD tNow)
              qr_expires_at := d.expires_at
              payrex_payment_intent_id := d.payrex_id }),
            (order.id, { payment_method := some "QRPH" })] }
    | none => settlementMockOutcome order tNow tMockId
  | _, _ => settlementMockOutcome order tNow tMockId

/-- C3: whenever the PayRex call fails in the edge function, or the invoke
fails or returns no qr_url in the client, the flow falls back to a
locally generated placeholder QR whose payload is the object with
merchant Rider App, the order's id, the order's amount, currency PHP and
payment_type QRPH, and still produces a displayable QR value (the edge
function answers 200 with that QR, the client sets qrValue to it). -/
theorem qr_fallback_payload_correct :
    (∀ (b : QrRequestBody) (payrex : PayRexCallResult) (t1 t2 t3 t4 t5 : Int),
      payrex = .httpError ∨ payrex = .networkError →
      ∃ r, generateQrHandler (some b) payrex t1 t2 t3 t4 t5 = .success r ∧
        r.qr_url = some (QrUrl.qrServer
          { merchant := "Rider App", order_id := b.orderId, amount := b.amount,
            currency := "PHP", payment_type := "QRPH" })) ∧
    (∀ (order : Order) (invoke : InvokeResult) (tNow tMockId : Int),
      invokeFailed invoke = true →
      (settlementHandleGenerateQR order invoke tNow tMockId).qrValue
        = some (QrUrl.qrServer
          { merchant := "Rider App", order_id := order.id, amount := order.cod_amount,
            currency := "PHP", payment_type := "QRPH" })) := by
  constructor
  · rintro b payrex t1 t2 t3 t4 t5 (rfl | rfl)
    · exact ⟨_, rfl, rfl⟩
    · exact ⟨_, rfl, rfl⟩
  · intro order invoke tNow tMockId h
    obtain ⟨data, error⟩ := invoke
    cases error with
    | some e => rfl
    | none =>
        cases data with
        | none => rfl
        | some d =>
            cases hq : d.qr_url with
            | none =>
                simp only [settlementHandleGenerateQR, hq]
                rfl
            | some u => simp [invokeFailed, hq] at h

/-- Witness for C3 at concrete inputs: a non-ok PayRex response and a
failed invoke both yield the qrserver QR over the expected payload. -/
theorem qr_fallback_payload_correct_witness :
    (∃ r, generateQrHandler (some ⟨"order-1", 150⟩) .httpError 0 0 10 11 12 = .success r ∧
      r.qr_url = some (QrUrl.qrServer
        { merchant := "Rider App", order_id := "order-1", amount := 150,
          currency := "PHP", payment_type := "QRPH" })) ∧
    (settlementHandleGenerateQR ⟨"order-1", "Ana", "Street 1", 150, "ARRIVED", 0⟩
        ⟨none, some "FunctionsFetchError"⟩ 0 0).qrValue
      = some (QrUrl.qrServer
        { merchant := "Rider App", order_id := "order-1", amount := 150,
          currency := "PHP", payment_type := "QRPH" }) :=
  ⟨qr_fallback_payload_correct.1 ⟨"order-1", 150⟩ .httpError 0 0 10 11 12 (Or.inl rfl),
   qr_fallback_payload_correct.2 ⟨"order-1", "Ana", "Street 1", 150, "ARRIVED", 0⟩
     ⟨none, some "FunctionsFetchError"⟩ 0 0 (by decide)⟩

/-- C4 counterexample: when the clock advances between the Date.now()
read of line 82 and the new Date() read of line 83 (here from 0 to 1 ms),
the success response's expires_at is not generated_at plus 5 minutes. -/
theorem generate_qr_expiry_cex :
    ∃ r, generateQrHandler (some ⟨"order-1", 150⟩)
          (.ok (some "https://payrex.example/qr.png") "pi_1") 0 1 0 0 0 = .success r ∧
      r.expires_in_seconds = QR_EXPIRY_MINUTES * 60 ∧
      r.expires_at ≠ r.generated_at + QR_EXPIRY_MINUTES * 60 * 1000 :=
  ⟨_, rfl, rfl, by decide⟩

/-- C4 amended: in both edge-function branches expires_at equals the
branch's Date.now() read plus 5 minutes and expires_in_seconds is 300;
since generated_at is read just after, expires_at is at most generated_at
plus 5 minutes, with equality exactly when both reads return the same
millisecond; the client's mock path uses a single time read and sets the
expiry to exactly that read plus 5 minutes. -/
theorem qr_expiry_timing :
    (∀ (qrUrl : Option String) (pid : String) (tNow tGen : Int),
      (generateQrSuccessResponse qrUrl pid tNow tGen).expires_in_seconds
          = QR_EXPIRY_MINUTES * 60 ∧
      (generateQrSuccessResponse qrUrl pid tNow tGen).expires_at
          = tNow + QR_EXPIRY_MINUTES * 60 * 1000 ∧
      (tNow ≤ tGen →
        (generateQrSuccessResponse qrUrl pid tNow tGen).expires_at
          ≤ (generateQrSuccessResponse qrUrl pid tNow tGen).generated_at
              + QR_EXPIRY_MINUTES * 60 * 1000) ∧
      (tNow = tGen →
        (generateQrSuccessResponse qrUrl pid tNow tGen).expires_at
          = (generateQrSuccessResponse qrUrl pid tNow tGen).generated_at
              + QR_EXPIRY_MINUTES * 60 * 1000)) ∧
    (∀ (orderId : String) (amount : Rat) (tNow tGen tId : Int),
      (generateQrFallbackResponse orderId amount tNow tGen tId).expires_in_seconds
          = QR_EXPIRY_MINUTES * 60 ∧
      (generateQrFallbackResponse orderId amount tNow tGen tId).expires_at
          = tNow + QR_EXPIRY_MINUTES * 60 * 1000 ∧
      (tNow ≤ tGen →
        (generateQrFallbackResponse orderId amount tNow tGen tId).expires_at
          ≤ (generateQrFallbackResponse orderId amount tNow tGen tId).generated_at
              + QR_EXPIRY_MINUTES * 60 * 1000) ∧
      (tNow = tGen →
        (generateQrFallbackResponse orderId amount tNow tGen tId).expires_at
          = (generateQrFallbackResponse orderId amount tNow tGen tId).generated_at
              + QR_EXPIRY_MINUTES * 60 * 1000)) ∧
    (∀ (order : Order) (invoke : InvokeResult) (tNow tMockId : Int),
      invokeFailed invoke = true →
      (settlementHandleGenerateQR order invoke tNow tMockId).qrExpiresAt
        = some (tNow + 5 * 60 * 1000)) := by
  refine ⟨?_, ?_, ?_⟩
  · intro qrUrl pid tNow tGen
    refine ⟨rfl, rfl, ?_, ?_⟩
    · intro h
      simp only [generateQrSuccessResponse, QR_EXPIRY_MINUTES]
      omega
    · intro h
      simp only [generateQrSuccessResponse, QR_EXPIRY_MINUTES]
      omega
  · intro orderId amount tNow tGen tId
    refine ⟨rfl, rfl, ?_, ?_⟩
    · intro h
      simp only [generateQrFallbackResponse, QR_EXPIRY_MINUTES]
      omega
    · intro h
      simp only [generateQrFallbackResponse, QR_EXPIRY_MINUTES]
      omega
  · intro order invoke tNow tMockId h
    obtain ⟨data, error⟩ := invoke
    cases error with
    | some e => rfl
    | none =>
        cases data with
        | none => rfl
        | some d =>
            cases hq : d.qr_url with
            | none =>
                simp only [settlementHandleGenerateQR, hq]
                rfl
            | some u => simp [invokeFailed, hq] at h

/-- Witness for the amended C4 theorem at concrete inputs: with both
clock reads at 20, the success response's expiry is exactly generated_at
plus 5 minutes, and a failed invoke at time 0 yields expiry 300000. -/
theorem qr_expiry_timing_witness :
    (generateQrSuccessResponse (some "u") "pi_1" 20 20).expires_at
      = (generateQrSuccessResponse (some "u") "pi_1" 20 20).generated_at
          + QR_EXPIRY_MINUTES * 60 * 1000 ∧
    (settlementHandleGenerateQR ⟨"order-1", "Ana", "Street 1", 150, "ARRIVED", 0⟩
        ⟨none, some "FunctionsFetchError"⟩ 0 0).qrExpiresAt = some (5 * 60 * 1000) :=
  ⟨((qr_expiry_timing.1 (some "u") "pi_1" 20 20).2.2.2) rfl,
   qr_expiry_timing.2.2 ⟨"order-1", "Ana", "Street 1", 150, "ARRIVED", 0⟩
     ⟨none, some "FunctionsFetchError"⟩ 0 0 (by decide)⟩

/-! ## QR countdown timer (settlement.tsx, useEffect at lines 569-635)

The effect starts a one-second setInterval while qrExpiresAt and qrValue
are set.  Each tick recomputes the remaining seconds as
max(0, floor((expiry - now) / 1000)) (line 587), stores it, warns at 60,
and at 0 clears the interval and calls handleGenerateQR once for the
currently selected order (via the setSelectedOrder callback, lines
613-622).  Int.fdiv models Math.floor of the quotient. -/

/-- Remaining whole seconds computed by a tick (line 587). -/
def qrTickRemaining (expiry now : Int) : Int :=
  max 0 ((expiry - now).fdiv 1000)

/-- State the interval callback reads and writes. -/
structure QrTimerState where
  qrExpiresAt : Int
  selectedOrder : Option String
  qrTimeRemaining : Option Int
  timerActive : Bool
deriving Repr, DecidableEq

/-- Observable output of one tick: the new state, the order id passed to
handleGenerateQR when regeneration fires, and whether the one-minute
warning toast fired. -/
structure QrTickOutput where
  state : QrTimerState
  regen : Option String
  warned : Bool
deriving Repr, DecidableEq

/-- One invocation of the interval callback at clock time now.  A cleared
interval (timerActive false) no longer runs; at remaining 0 the callback
clears the interval and requests regeneration for the selected order when
one is set. -/
def qrTick (st : QrTimerState) (now : Int) : QrTickOutput :=
  if st.timerActive = false then ⟨st, none, false⟩
  else
    let remaining := qrTickRemaining st.qrExpiresAt now
    if remaining = 0 then
      ⟨{ st with qrTimeRemaining := some 0, timerActive := false }, st.selectedOrder, false⟩
    else
      ⟨{ st with qrTimeRemaining := some remaining }, none, remaining = 60⟩

/-- Regeneration requests issued over a sequence of tick times. -/
def qrTimerRun (st : QrTimerState) : List Int → List String
  | [] => []
  | t :: ts =>
      let o := qrTick st t
      o.regen.toList ++ qrTimerRun o.state ts

theorem qrTick_inactive (st : QrTimerState) (t : Int) (h : st.timerActive = false) :
    qrTick st t = ⟨st, none, false⟩ := by
  simp [qrTick, h]

theorem qrTimerRun_inactive (st : QrTimerState) (ts : List Int)
    (h : st.timerActive = false) : qrTimerRun st ts = [] := by
  induction ts with
  | nil => rfl
  | cons t ts ih => simp [qrTimerRun, qrTick_inactive st t h, ih]

/-- C5: a tick with positive remaining time never triggers regeneration
and keeps the interval running; a tick that reaches remaining 0 clears
the interval and requests regeneration exactly for the currently selected
order; and along any sequence of ticks at most one regeneration request
fires per started timer. -/
theorem qr_timer_tick_behavior :
    (∀ (st : QrTimerState) (now : Int), st.timerActive = true →
      0 < qrTickRemaining st.qrExpiresAt now →
      (qrTick st now).regen = none ∧ (qrTick st now).state.timerActive = true) ∧
    (∀ (st : QrTimerState) (now : Int), st.timerActive = true →
      qrTickRemaining st.qrExpiresAt now = 0 →
      (qrTick st now).state.timerActive = false ∧
      (qrTick st now).regen = st.selectedOrder ∧
      (qrTick st now).state.qrTimeRemaining = some 0) ∧
    (∀ (st : QrTimerState) (ts : List Int), (qrTimerRun st ts).length ≤ 1) := by
  refine ⟨?_, ?_, ?_⟩
  · intro st now hact hpos
    have hne : ¬ qrTickRemaining st.qrExpiresAt now = 0 := by omega
    simp [qrTick, hact, hne]
  · intro st now hact hzero
    simp [qrTick, hact, hzero]
  · intro st ts
    induction ts generalizing st with
    | nil => simp [qrTimerRun]
    | cons t ts ih =>
        by_cases hact : st.timerActive = false
        · rw [qrTimerRun_inactive st (t :: ts) hact]
          simp
        · simp only [qrTimerRun]
          by_cases hzero : qrTickRemaining st.qrExpiresAt t = 0
          · have hact' : st.timerActive = true := by
              cases h : st.timerActive
              · exact absurd h hact
              · rfl
            have hq : qrTick st t
                = ⟨{ st with qrTimeRemaining := some 0, timerActive := false },
                   st.selectedOrder, false⟩ := by
              simp [qrTick, hact', hzero]
            rw [hq]
            have hrest : qrTimerRun
                { st with qrTimeRemaining := some 0, timerActive := false } ts = [] :=
              qrTimerRun_inactive _ ts rfl
            simp only [hrest, List.append_nil]
            cases st.selectedOrder <;> simp
          · have hact' : st.timerActive = true := by
              cases h : st.timerActive
              · exact absurd h hact
              · rfl
            have hq : qrTick st t
                = ⟨{ st with qrTimeRemaining := some (qrTickRemaining st.qrExpiresAt t) },
                   none, qrTickRemaining st.qrExpiresAt t = 60⟩ := by
              simp [qrTick, hact', hzero]
            rw [hq]
            simpa using ih _

/-- Witness for C5 at concrete inputs: with expiry 300000, a tick at time
0 leaves 300 seconds and does not regenerate, a tick at 300000 clears the
timer and regenerates for the selected order. -/
theorem qr_timer_tick_behavior_witness :
    ((qrTick ⟨300000, some "order-1", none, true⟩ 0).regen = none ∧
      (qrTick ⟨300000, some "order-1", none, true⟩ 0).state.timerActive = true) ∧
    ((qrTick ⟨300000, some "order-1", none, true⟩ 300000).state.timerActive = false ∧
      (qrTick ⟨300000, some "order-1", none, true⟩ 300000).regen = some "order-1" ∧
      (qrTick ⟨300000, some "order-1", none, true⟩ 300000).state.qrTimeRemaining = some 0) :=
  ⟨qr_timer_tick_behavior.1 ⟨300000, some "order-1", none, true⟩ 0 rfl (by decide),
   qr_timer_tick_behavior.2.1 ⟨300000, some "order-1", none, true⟩ 300000 rfl (by decide)⟩

/-! ## Realtime subscriptions on the orders table (C6)

Each .on(postgres_changes, cfg, handler) registration is modelled by the
event kind, schema, table and optional rider_id filter it passes; a
filter string rider_id=eq.V is modelled as some V, no filter as none.
Registrations in the source:

- settlement.tsx 33-47 (settlement screen): event *, filter
  rider_id=eq.user.id;
- settlement.tsx 679-708 (home screen): event INSERT, same filter;
- settlement.tsx 709-801 (home screen): event UPDATE, same filter;
- index.tsx 36-54: event UPDATE, no filter. -/

/-- Change notification for a row of the orders table; rider_id is the
affected row's rider_id column. -/
structure OrdersChangeEvent where
  schema : String
  table : String
  eventType : String
  rider_id : String
deriving Repr, DecidableEq

/-- Configuration of one postgres_changes registration. -/
structure RealtimeSubscription where
  event : String
  schema : String
  table : String
  riderFilter : Option String
deriving Repr, DecidableEq

/-- Whether the subscription delivers the event to its handler: the event
kind matches (or the subscription listens to *), schema and table match,
and the rider_id filter, when present, matches the row. -/
def deliversEvent (sub : RealtimeSubscription) (e : OrdersChangeEvent) : Bool :=
  (sub.event == "*" || sub.event == e.eventType) &&
    sub.schema == e.schema && sub.table == e.table &&
    (match sub.riderFilter with
     | some v => e.rider_id == v
     | none => true)

/-- Settlement-screen subscription (settlement.tsx 33-47). -/
def settlementStatsSubscription (uid : String) : RealtimeSubscription :=
  ⟨"*", "public", "orders", some uid⟩

/-- Home-screen INSERT subscription (settlement.tsx 679-708). -/
def homeOrdersInsertSubscription (uid : String) : RealtimeSubscription :=
  ⟨"INSERT", "public", "orders", some uid⟩

/-- Home-screen UPDATE subscription (settlement.tsx 709-801). -/
def homeOrdersUpdateSubscription (uid : String) : RealtimeSubscription :=
  ⟨"UPDATE", "public", "orders", some uid⟩

/-- Subscription registered by index.tsx 36-54: no filter is passed. -/
def indexOrdersSubscription : RealtimeSubscription :=
  ⟨"UPDATE", "public", "orders", none⟩

/-- Scoping property the claim asserts of a subscription built for the
logged-in user: every delivered event concerns a row of that rider. -/
def subscriptionScopedToRider (sub : String → RealtimeSubscription) : Prop :=
  ∀ (uid : String) (e : OrdersChangeEvent),
    deliversEvent (sub uid) e = true → e.rider_id = uid

/-- C6 counterexample: the subscription of index.tsx carries no rider_id
filter, so for a user logged in as rider-A it delivers an UPDATE event on
a row whose rider_id is rider-B. -/
theorem index_subscription_unscoped_cex :
    ¬ subscriptionScopedToRider (fun _ => indexOrdersSubscription) := by
  intro h
  have := h "rider-A" ⟨"public", "orders", "UPDATE", "rider-B"⟩ (by decide)
  exact absurd this (by decide)

/-- C6 amended: the three orders-table subscriptions registered in
settlement.tsx all filter on rider_id=eq.user.id, so every event they
deliver concerns a row of the logged-in rider; the subscription in
index.tsx passes no filter and is not scoped. -/
theorem settlement_subscriptions_scoped :
    subscriptionScopedToRider settlementStatsSubscription ∧
    subscriptionScopedToRider homeOrdersInsertSubscription ∧
    subscriptionScopedToRider homeOrdersUpdateSubscription := by
  refine ⟨?_, ?_, ?_⟩ <;>
    · intro uid e h
      simp only [deliversEvent, settlementStatsSubscription, homeOrdersInsertSubscription,
        homeOrdersUpdateSubscription, Bool.and_eq_true, beq_iff_eq] at h
      exact h.2

/-- Witness for the amended C6 theorem: the settlement-screen subscription
for rider-A delivers an UPDATE on one of rider-A's rows, and indeed the
row's rider_id is rider-A. -/
theorem settlement_subscriptions_scoped_witness :
    OrdersChangeEvent.rider_id ⟨"public", "orders", "UPDATE", "rider-A"⟩ = "rider-A" :=
  settlement_subscriptions_scoped.1 "rider-A"
    ⟨"public", "orders", "UPDATE", "rider-A"⟩ (by decide)

/-! ## Location service (src/rider-app/services/locationService.ts)

captureCurrentLocation checks the foreground permission, requests it when
not yet granted, fetches one high-accuracy position, and maps every error
to null through its try/catch.  The environment record carries the
results of the three external expo-location calls the function makes. -/

/-- GPS fix returned by captureCurrentLocation (interface
DeliveryLocation). -/
structure DeliveryLocation where
  latitude : Rat
  longitude : Rat
  timestamp : Int
  accuracy : Option Rat
deriving Repr, DecidableEq

/-- Position object returned by Location.getCurrentPositionAsync:
coords.latitude, coords.longitude, the fix timestamp, and
coords.accuracy, which may be null. -/
structure RawPosition where
  latitude : Rat
  longitude : Rat
  timestamp : Int
  accuracy : Option Rat
deriving Repr, DecidableEq

/-- Results of the expo-location calls during one
captureCurrentLocation run: the status string of
getForegroundPermissionsAsync, the outcome of
requestForegroundPermissionsAsync (its status string, or a thrown error),
and the outcome of getCurrentPositionAsync (a position, or a thrown
error). -/
structure LocationEnv where
  foregroundStatus : String
  requestOutcome : Except String String
  positionOutcome : Except String RawPosition
deriving Repr

/-- requestLocationPermission (locationService.ts 18-26): true exactly
when the request resolves with status granted; a thrown error is caught
and yields false. -/
def requestLocationPermission (env : LocationEnv) : Bool :=
  match env.requestOutcome with
  | .ok s => s == "granted"
  | .error _ => false

/-- DeliveryLocation built from a raw position (locationService.ts 49-54);
coords.accuracy or undefined maps a null or zero accuracy to an absent
field. -/
def capturedLocation (p : RawPosition) : DeliveryLocation :=
  { latitude := p.latitude
    longitude := p.longitude
    timestamp := p.timestamp
    accuracy := match p.accuracy with
                | some a => if a == 0 then none else some a
                | none => none }

/-- captureCurrentLocation (locationService.ts 32-59): none when the
permission is denied (initial status not granted and the request does not
grant it) or the position lookup throws; otherwise the captured fix. -/
def captureCurrentLocation (env : LocationEnv) : Option DeliveryLocation :=
  if env.foregroundStatus != "granted" && !requestLocationPermission env then
    none
  else
    match env.positionOutcome with
    | .error _ => none
    | .ok p => some (capturedLocation p)

/-! ## Proof of delivery (settlement.tsx handlePOD 1047-1212,
index.tsx handlePOD 140-253)

handlePOD captures one GPS fix, takes a photo, uploads the bytes to the
proofs bucket, and issues one orders update completing the delivery.  The
function below returns the list of orders updates the run issues; an
empty list means the flow aborted (photo canceled, or upload failed with
an error other than a missing bucket). -/

/-- Result of ImagePicker.launchCameraAsync. -/
inductive PodPhoto where
  | canceled
  | taken (uri : String)
deriving Repr, DecidableEq

/-- Result of the storage upload; bucketNotFound is the error whose
message mentions a missing bucket (settlement.tsx 1117, index.tsx 187),
failed is any other upload error. -/
inductive UploadOutcome where
  | ok
  | bucketNotFound
  | failed (msg : String)
deriving Repr, DecidableEq

/-- Name of the uploaded proof object: orderId, underscore, the Date.now()
read, and the jpg suffix. -/
def podFileName (orderId : String) (tFile : Int) : String :=
  orderId ++ "_" ++ toString tFile ++ ".jpg"

/-- handlePOD of the home screen in settlement.tsx.  cashReason is the
optional third argument; the update carries cash_fallback_reason only
when the payment method is CASH and a non-empty reason was passed
(lines 1134-1136 and 1180-1182). -/
def settlementHandlePOD (orderId pm : String) (cashReason : Option String)
    (location : Option DeliveryLocation) (photo : PodPhoto)
    (upload : UploadOutcome) (tFile : Int) : List (String × OrdersUpdate) :=
  match photo with
  | .canceled => []
  | .taken _ =>
    let reasonField : Option String :=
      match cashReason with
      | some r => if pm == "CASH" && r != "" then some r else none
      | none => none
    let base : OrdersUpdate :=
      { status := some "COMPLETED"
        payment_method := some pm
        delivery_latitude := location.map (·.latitude)
        delivery_longitude := location.map (·.longitude)
        delivery_timestamp := location.map (·.timestamp)
        cash_fallback_reason := reasonField }
    match upload with
    | .ok =>
        [(orderId, { base with
          proof_url := some (ProofUrl.publicUrl "proofs" (podFileName orderId tFile)) })]
    | .bucketNotFound =>
        [(orderId, { base with proof_url := some ProofUrl.noStorageConfigured })]
    | .failed _ => []

/-- handlePOD of index.tsx: same flow but the function takes no cash
reason argument and its updates never carry cash_fallback_reason
(index.tsx 194-204 and 227-237). -/
def indexHandlePOD (orderId pm : String)
    (location : Option DeliveryLocation) (photo : PodPhoto)
    (upload : UploadOutcome) (tFile : Int) : List (String × OrdersUpdate) :=
  match photo with
  | .canceled => []
  | .taken _ =>
    let base : OrdersUpdate :=
      { status := some "COMPLETED"
        payment_method := some pm
        delivery_latitude := location.map (·.latitude)
        delivery_longitude := location.map (·.longitude)
        delivery_timestamp := location.map (·.timestamp) }
    match upload with
    | .ok =>
        [(orderId, { base with
          proof_url := some (ProofUrl.publicUrl "proofs" (podFileName orderId tFile)) })]
    | .bucketNotFound =>
        [(orderId, { base with proof_url := some ProofUrl.noStorageConfigured })]
    | .failed _ => []

/-! ## Cash fallback reasons (C8)

settlement.tsx 1599-1625: the Customer Paid Cash button offers two
options, each calling handlePOD with payment method CASH and a reason
code.  src/unnamed/part_002 130-152: processCashFallback records the
chosen reason (one of four codes offered by handleCashFallback at
104-128) together with payment_method CASH. -/

/-- Reason codes the claim lists as the fixed set (union of the
part_002 handleCashFallback options and the settlement.tsx cash-button
options). -/
def cashFallbackReasonCodes : List String :=
  ["QR_PAYMENT_FAILED", "CUSTOMER_NO_INTERNET", "CUSTOMER_REQUEST",
   "APP_ERROR", "QR_PAYMENT_UNAVAILABLE"]

/-- Arguments of the handlePOD calls reachable from the Customer Paid
Cash button of settlement.tsx (lines 1610-1617): order id, payment
method, reason code. -/
def settlementCashButtonCalls (orderId : String) : List (String × String × String) :=
  [(orderId, "CASH", "QR_PAYMENT_UNAVAILABLE"),
   (orderId, "CASH", "CUSTOMER_REQUEST")]

/-- processCashFallback of src/unnamed/part_002 (lines 130-152): a single
orders update recording status PAID, payment_method CASH, the reason code
and a fallback timestamp. -/
def processCashFallback (orderId reason : String) (t : Int) : String × OrdersUpdate :=
  (orderId,
    { status := some "PAID"
      payment_method := some "CASH"
      cash_fallback_reason := some reason
      fallback_timestamp := some t })

/-! ## payrex-webhook edge function
(src/supabase/functions/payrex-webhook/index.ts, lines 4-41)

The handler parses the event, and only for type payment_intent.succeeded
updates the order named in the intent's metadata.order_id; every other
parsed event is acknowledged with 200 and received true and touches
nothing. -/

/-- Payment-intent object of a webhook event (event.data.object): its id
and metadata.order_id. -/
structure PaymentIntentObject where
  id : String
  metadata_order_id : String
deriving Repr, DecidableEq

/-- Parsed webhook event: its type and, when present, event.data.object. -/
structure WebhookEvent where
  type : String
  data_object : Option PaymentIntentObject
deriving Repr, DecidableEq

/-- Response of the webhook handler: 200 with received true, or 400 with
an error message from the catch block. -/
inductive WebhookResponse where
  | received
  | badRequest (msg : String)
deriving Repr, DecidableEq

/-- One invocation of the payrex-webhook handler on a parsed event.
dbError is the error of the orders update when one is attempted (line 32
rethrows it into the catch).  When a succeeded event carries no data
object, reading event.data.object throws; the thrown TypeError's exact
message is runtime text the theorems never inspect. -/
def payrexWebhookHandler (e : WebhookEvent) (dbError : Option String) :
    List (String × OrdersUpdate) × WebhookResponse :=
  if e.type == "payment_intent.succeeded" then
    match e.data_object with
    | none => ([], .badRequest "TypeError")
    | some pi =>
        let upd : List (String × OrdersUpdate) :=
          [(pi.metadata_order_id,
            { status := some "PAID"
              payment_method := some "QRPH"
              payrex_id := some pi.id })]
        match dbError with
        | some m => (upd, .badRequest m)
        | none => (upd, .received)
  else ([], .received)

/-- C7: when the POD flow succeeds (photo taken, upload to storage ok)
and a GPS fix was captured, handlePOD issues exactly one orders update,
and that update carries status COMPLETED, the uploaded photo's public URL
as proof_url, and the fix's latitude, longitude and timestamp. -/
theorem handlePOD_success_single_update :
    ∀ (orderId pm : String) (cashReason : Option String) (loc : DeliveryLocation)
      (uri : String) (tFile : Int),
      ∃ u, settlementHandlePOD orderId pm cashReason (some loc) (.taken uri) .ok tFile
            = [(orderId, u)] ∧
        u.status = some "COMPLETED" ∧
        u.proof_url = some (ProofUrl.publicUrl "proofs" (podFileName orderId tFile)) ∧
        u.payment_method = some pm ∧
        u.delivery_latitude = some loc.latitude ∧
        u.delivery_longitude = some loc.longitude ∧
        u.delivery_timestamp = some loc.timestamp := by
  intro orderId pm cashReason loc uri tFile
  exact ⟨_, rfl, rfl, rfl, rfl, rfl, rfl, rfl⟩

/-- Witness for C7 at a concrete successful completion. -/
theorem handlePOD_success_single_update_witness :
    ∃ u, settlementHandlePOD "order-1" "QRPH" none
          (some ⟨(146 : Rat) / 10, 121, 1700000000000, some 5⟩)
          (.taken "file:///pod.jpg") .ok 1700000000500
        = [("order-1", u)] ∧
      u.status = some "COMPLETED" ∧
      u.proof_url = some (ProofUrl.publicUrl "proofs" (podFileName "order-1" 1700000000500)) ∧
      u.payment_method = some "QRPH" ∧
      u.delivery_latitude = some ((146 : Rat) / 10) ∧
      u.delivery_longitude = some (121 : Rat) ∧
      u.delivery_timestamp = some (1700000000000 : Int) :=
  handlePOD_success_single_update "order-1" "QRPH" none
    ⟨(146 : Rat) / 10, 121, 1700000000000, some 5⟩ "file:///pod.jpg" 1700000000500

/-- C8 counterexample: the cash completion of index.tsx (Customer Paid
Cash calls handlePOD(id, CASH) with no reason argument) writes
payment_method CASH and status COMPLETED with no cash_fallback_reason. -/
theorem index_cash_completion_no_reason_cex :
    ∃ u, indexHandlePOD "order-1" "CASH"
          (some ⟨(146 : Rat) / 10, 121, 1700000000000, none⟩)
          (.taken "file:///pod.jpg") .ok 1700000000500
        = [("order-1", u)] ∧
      u.status = some "COMPLETED" ∧
      u.payment_method = some "CASH" ∧
      u.cash_fallback_reason = none :=
  ⟨_, rfl, rfl, rfl, rfl⟩

/-- C8 amended: in the settlement screen every cash completion goes
through the Customer Paid Cash button, whose two options both pass
payment method CASH and a reason code from the fixed set, and handlePOD
writes any such reason onto the completion update together with
payment_method CASH; processCashFallback of the part_002 variant likewise
records a reason with payment_method CASH.  The cash completions of
index.tsx, however, carry no reason (see the counterexample). -/
theorem cash_fallback_reason_recorded :
    (∀ (orderId : String), ∀ c ∈ settlementCashButtonCalls orderId,
      c.1 = orderId ∧ c.2.1 = "CASH" ∧ c.2.2 ∈ cashFallbackReasonCodes) ∧
    (∀ (orderId reason : String) (location : Option DeliveryLocation)
       (photo : PodPhoto) (upload : UploadOutcome) (tFile : Int),
      reason ≠ "" →
      ∀ u ∈ settlementHandlePOD orderId "CASH" (some reason) location photo upload tFile,
        u.2.payment_method = some "CASH" ∧
        u.2.cash_fallback_reason = some reason) ∧
    (∀ (orderId reason : String) (t : Int),
      (processCashFallback orderId reason t).2.payment_method = some "CASH" ∧
      (processCashFallback orderId reason t).2.cash_fallback_reason = some reason) := by
  refine ⟨?_, ?_, ?_⟩
  · intro orderId c hc
    simp only [settlementCashButtonCalls, List.mem_cons, List.mem_singleton,
      List.not_mem_nil, or_false] at hc
    rcases hc with rfl | rfl
    · exact ⟨rfl, rfl, show "QR_PAYMENT_UNAVAILABLE" ∈ cashFallbackReasonCodes by decide⟩
    · exact ⟨rfl, rfl, show "CUSTOMER_REQUEST" ∈ cashFallbackReasonCodes by decide⟩
  · intro orderId reason location photo upload tFile hne u hu
    have hr : (reason != "") = true := by
      simpa using hne
    cases photo with
    | canceled => simp [settlementHandlePOD] at hu
    | taken uri =>
        cases upload with
        | ok =>
            simp only [settlementHandlePOD, hr, Bool.and_true, Bool.and_self,
              List.mem_singleton] at hu
            subst hu
            simp [hr]
        | bucketNotFound =>
            simp only [settlementHandlePOD, hr, Bool.and_true, Bool.and_self,
              List.mem_singleton] at hu
            subst hu
            simp [hr]
        | failed msg => simp [settlementHandlePOD] at hu
  · intro orderId reason t
    exact ⟨rfl, rfl⟩

/-- Witness for the amended C8 theorem at a concrete cash completion. -/
theorem cash_fallback_reason_recorded_witness :
    ∀ u ∈ settlementHandlePOD "order-1" "CASH" (some "CUSTOMER_REQUEST")
        none (.taken "file:///pod.jpg") .ok 1700000000500,
      u.2.payment_method = some "CASH" ∧
      u.2.cash_fallback_reason = some "CUSTOMER_REQUEST" :=
  cash_fallback_reason_recorded.2.1 "order-1" "CUSTOMER_REQUEST" none
    (.taken "file:///pod.jpg") .ok 1700000000500 (by decide)

/-- C9: a parsed webhook event whose type is not payment_intent.succeeded
causes no orders update and is acknowledged with 200 and received true;
conversely every orders update the handler issues comes from a
payment_intent.succeeded event and sets exactly status PAID,
payment_method QRPH and the intent id on the order named in
metadata.order_id. -/
theorem payrex_webhook_frame_effect :
    (∀ (e : WebhookEvent) (dbError : Option String),
      e.type ≠ "payment_intent.succeeded" →
      payrexWebhookHandler e dbError = ([], .received)) ∧
    (∀ (e : WebhookEvent) (dbError : Option String) (u : String × OrdersUpdate),
      u ∈ (payrexWebhookHandler e dbError).1 →
      e.type = "payment_intent.succeeded" ∧
      ∃ pi, e.data_object = some pi ∧
        u = (pi.metadata_order_id,
          { status := some "PAID"
            payment_method := some "QRPH"
            payrex_id := some pi.id })) := by
  constructor
  · intro e dbError h
    have hb : (e.type == "payment_intent.succeeded") = false := by
      simpa using h
    simp [payrexWebhookHandler, hb]
  · intro e dbError u hu
    by_cases ht : e.type = "payment_intent.succeeded"
    · refine ⟨ht, ?_⟩
      have hb : (e.type == "payment_intent.succeeded") = true := by
        simpa using ht
      cases hdo : e.data_object with
      | none => simp [payrexWebhookHandler, hb, hdo] at hu
      | some pi =>
          refine ⟨pi, rfl, ?_⟩
          cases dbError with
          | none =>
              simp only [payrexWebhookHandler, hb, hdo, if_true,
                List.mem_singleton] at hu
              exact hu
          | some m =>
              simp only [payrexWebhookHandler, hb, hdo, if_true,
                List.mem_singleton] at hu
              exact hu
    · have hb : (e.type == "payment_intent.succeeded") = false := by
        simpa using ht
      simp [payrexWebhookHandler, hb] at hu

/-- Witness for C9 at a concrete non-succeeded event. -/
theorem payrex_webhook_frame_effect_witness :
    payrexWebhookHandler ⟨"payment_intent.failed", none⟩ none = ([], .received) :=
  payrex_webhook_frame_effect.1 ⟨"payment_intent.failed", none⟩ none (by decide)

/-- C10: captureCurrentLocation is total over its error cases: it returns
none when the permission is denied or the position lookup throws, the
captured fix otherwise, and never propagates an exception (its result
type is an Option, every branch of the embedding is covered); handlePOD
still issues the COMPLETED update when no fix is available, with the
delivery columns absent. -/
theorem captureCurrentLocation_total_behavior :
    (∀ env : LocationEnv,
      env.foregroundStatus ≠ "granted" → requestLocationPermission env = false →
      captureCurrentLocation env = none) ∧
    (∀ (env : LocationEnv) (msg : String),
      env.positionOutcome = .error msg → captureCurrentLocation env = none) ∧
    (∀ (env : LocationEnv) (p : RawPosition),
      env.positionOutcome = .ok p →
      (env.foregroundStatus = "granted" ∨ requestLocationPermission env = true) →
      captureCurrentLocation env = some (capturedLocation p)) ∧
    (∀ (orderId pm : String) (cashReason : Option String) (uri : String) (tFile : Int),
      ∃ u, settlementHandlePOD orderId pm cashReason none (.taken uri) .ok tFile
            = [(orderId, u)] ∧
        u.status = some "COMPLETED" ∧
        u.delivery_latitude = none ∧
        u.delivery_longitude = none ∧
        u.delivery_timestamp = none) := by
  refine ⟨?_, ?_, ?_, ?_⟩
  · intro env h1 h2
    simp [captureCurrentLocation, h1, h2]
  · intro env msg hpos
    simp only [captureCurrentLocation, hpos]
    split <;> rfl
  · intro env p hpos hperm
    have hcond : (env.foregroundStatus != "granted"
        && !requestLocationPermission env) = false := by
      rcases hperm with h | h <;> simp [h]
    simp [captureCurrentLocation, hcond, hpos]
  · intro orderId pm cashReason uri tFile
    exact ⟨_, rfl, rfl, rfl, rfl, rfl⟩

/-- Witness for C10 at concrete runs: a denied permission yields none, a
successful lookup yields the fix, and a POD completion without a fix
still carries status COMPLETED. -/
theorem captureCurrentLocation_total_behavior_witness :
    captureCurrentLocation ⟨"denied", .ok "denied", .error "unavailable"⟩ = none ∧
    captureCurrentLocation
        ⟨"granted", .ok "granted", .ok ⟨(146 : Rat) / 10, 121, 1700000000000, some 5⟩⟩
      = some (capturedLocation ⟨(146 : Rat) / 10, 121, 1700000000000, some 5⟩) ∧
    ∃ u, settlementHandlePOD "order-1" "CASH" (some "CUSTOMER_REQUEST") none
          (.taken "file:///pod.jpg") .ok 1700000000500
        = [("order-1", u)] ∧
      u.status = some "COMPLETED" ∧
      u.delivery_latitude = none ∧
      u.delivery_longitude = none ∧
      u.delivery_timestamp = none :=
  ⟨captureCurrentLocation_total_behavior.1 ⟨"denied", .ok "denied", .error "unavailable"⟩
      (by decide) (by decide),
   captureCurrentLocation_total_behavior.2.2.1
      ⟨"granted", .ok "granted", .ok ⟨(146 : Rat) / 10, 121, 1700000000000, some 5⟩⟩
      ⟨(146 : Rat) / 10, 121, 1700000000000, some 5⟩ rfl (Or.inl rfl),
   captureCurrentLocation_total_behavior.2.2.2 "order-1" "CASH"
      (some "CUSTOMER_REQUEST") "file:///pod.jpg" 1700000000500⟩

end GoSpire
